import Mathlib

/-!
A verification development for a small MCP (Model Context Protocol) codebase:
a Flask JSON-RPC tool server with a sandboxed filesystem
(`mcp/http/mcp_plain_flask_app.py`), a stdio tool server
(`mcp/stdin/server.py`), and an OpenAI function-calling bridge
(`mcp/http/mcp_openai_bridge.py`).

The Python code is shallowly embedded: JSON values become an inductive type,
`pathlib` paths become lists of segments, the on-disk sandbox tree becomes an
explicit `World` state threaded through the handlers, and raised exceptions
become `Except` results.  Python floats are modelled as exact rationals
(their decimal formatting is abstracted by the rational's own rendering);
the system clock consumed by the `now` tool is a field of the `World`.
-/

/-! ## JSON values -/

/-- A JSON value, as passed around in `params`/`arguments` and tool results. -/
inductive JVal where
  | null : JVal
  | bool (b : Bool) : JVal
  | num (q : ℚ) : JVal
  | str (s : String) : JVal
  | arr (elems : List JVal) : JVal
  | obj (fields : List (String × JVal)) : JVal

/-- Lookup of a key in a JSON object's field list / a Python `dict.get`:
first binding wins, `none` when absent. -/
def lookupField (fields : List (String × JVal)) (key : String) : Option JVal :=
  match fields with
  | [] => none
  | (k, v) :: rest => if k = key then some v else lookupField rest key

/-- Python truthiness (`bool(x)`) of a JSON value. -/
def pyTruthy : JVal → Bool
  | .null => false
  | .bool b => b
  | .num q => decide (q ≠ 0)
  | .str s => decide (s ≠ "")
  | .arr elems => !elems.isEmpty
  | .obj fields => !fields.isEmpty

/-- Rendering of a rational as a numeric literal.  This abstracts Python's
decimal formatting of floats: an integer prints as its integer literal, a
non-integer as `num/den` (the exact value rather than its decimal form). -/
def ratRepr (q : ℚ) : String :=
  if q.den = 1 then toString q.num else toString q.num ++ "/" ++ toString q.den

/-- Python `str(x)` on a JSON value.  On strings it is the identity (the only
case the handlers rely on); the renderings of the remaining cases abstract
Python's `repr`-style formatting. -/
def pyStr : JVal → String
  | .null => "None"
  | .bool b => if b then "True" else "False"
  | .num q => ratRepr q
  | .str s => s
  | .arr _ => "<array>"
  | .obj _ => "<object>"

/-- Comma-joined rendering of already-serialized pieces, used by `dumps`. -/
def joinComma : List String → String
  | [] => ""
  | [s] => s
  | s :: rest => s ++ ", " ++ joinComma rest

mutual
/-- Python `json.dumps` of a JSON value (Python's default separators; numbers are
rendered through `ratRepr`, string escaping is not modelled). -/
def dumps : JVal → String
  | .null => "null"
  | .bool b => if b then "true" else "false"
  | .num q => ratRepr q
  | .str s => "\"" ++ s ++ "\""
  | .arr elems => "[" ++ joinComma (dumpsList elems) ++ "]"
  | .obj fields => "\x7b" ++ joinComma (dumpsFields fields) ++ "\x7d"

def dumpsList : List JVal → List String
  | [] => []
  | v :: rest => dumps v :: dumpsList rest

def dumpsFields : List (String × JVal) → List String
  | [] => []
  | (k, v) :: rest => ("\"" ++ k ++ "\": " ++ dumps v) :: dumpsFields rest
end

/-! ## Python `float()` on JSON values

`float(n)` succeeds on numbers and booleans, and on strings that spell a
decimal literal.  The string grammar modelled here is an optional sign, then
digits with an optional fractional part and an optional exponent; Python's
further forms (`inf`, `nan`, underscore separators, surrounding whitespace)
are not modelled and map to `none`. -/

/-- Digits of a decimal literal read left-to-right into a natural number;
`none` on a non-digit or on an empty list when `seen` is `false`. -/
def readDigits : List Char → Nat → Bool → Option (Nat × Bool)
  | [], acc, seen => if seen then some (acc, true) else none
  | c :: cs, acc, _ =>
    if c.isDigit then readDigits cs (acc * 10 + (c.toNat - '0'.toNat)) true
    else none

/-- Split a character list at the first occurrence of any of the given
separator characters, returning the part before, the separator found, and the
part after (`none` when no separator occurs). -/
def splitAtFirst (seps : List Char) : List Char → Option (List Char × Char × List Char)
  | [] => none
  | c :: cs =>
    if c ∈ seps then some ([], c, cs)
    else match splitAtFirst seps cs with
      | none => none
      | some (pre, sep, post) => some (c :: pre, sep, post)

/-- Parse an optional leading sign, returning whether it was negative and
the remaining characters. -/
def readSign : List Char → Bool × List Char
  | '-' :: cs => (true, cs)
  | '+' :: cs => (false, cs)
  | cs => (false, cs)

/-- Negate when the sign was negative. -/
def applySign (neg : Bool) (q : ℚ) : ℚ := if neg then -q else q

/-- Parse `digits` or `digits.digits` or `.digits` or `digits.` into an exact
rational (no sign, no exponent). -/
def readMantissa (cs : List Char) : Option ℚ :=
  match splitAtFirst ['.'] cs with
  | none =>
    match readDigits cs 0 false with
    | some (n, _) => some (n : ℚ)
    | none => none
  | some (intPart, _, fracPart) =>
    match intPart, fracPart with
    | [], [] => none
    | _, _ =>
      let ipart : Option Nat :=
        match readDigits intPart 0 false with
        | some (n, _) => some n
        | none => if intPart = [] then some 0 else none
      let fpart : Option (Nat × Nat) :=
        match readDigits fracPart 0 false with
        | some (n, _) => some (n, fracPart.length)
        | none => if fracPart = [] then some (0, 0) else none
      match ipart, fpart with
      | some i, some (f, k) => some ((i : ℚ) + (f : ℚ) / ((10 : ℚ) ^ k))
      | _, _ => none

/-- Parse a decimal float literal (optional sign, mantissa, optional
exponent) into an exact rational. -/
def parseFloatLit (s : String) : Option ℚ :=
  let (neg, cs) := readSign s.data
  let withMant : Option (ℚ × List Char) :=
    match splitAtFirst ['e', 'E'] cs with
    | none =>
      match readMantissa cs with
      | some m => some (m, [])
      | none => none
    | some (mant, _, expPart) =>
      match readMantissa mant with
      | some m => some (m, expPart)
      | none => none
  match withMant with
  | none => none
  | some (m, expChars) =>
    if expChars = [] then some (applySign neg m)
    else
      let (eneg, ecs) := readSign expChars
      match readDigits ecs 0 false with
      | some (e, _) =>
        some (applySign neg (if eneg then m / (10 : ℚ) ^ e else m * (10 : ℚ) ^ e))
      | none => none

/-- Python `float(v)` on a JSON value: numbers pass through, booleans become
`0`/`1`, decimal-literal strings parse, everything else raises (`none`). -/
def pyFloat : JVal → Option ℚ
  | .num q => some q
  | .bool b => some (if b then 1 else 0)
  | .str s => parseFloatLit s
  | _ => none

/-- The generator `(float(n) for n in nums)` driven by `sum`: all the
conversions, or `none` as soon as one raises. -/
def floatsOf : List JVal → Option (List ℚ)
  | [] => some []
  | v :: rest =>
    match pyFloat v, floatsOf rest with
    | some q, some qs => some (q :: qs)
    | _, _ => none

/-! ## Paths (`pathlib.PurePosixPath` semantics)

A path is a flag saying whether it is absolute plus its list of segments.
`Path(s)` drops empty and `"."` segments (as `pathlib` normalizes on
construction) but keeps `".."`; `.resolve()` eliminates `".."` lexically
(symlinks are not modelled — the spec flags symlink escape as an open risk). -/

structure PyPath where
  absolute : Bool
  segs : List String
deriving DecidableEq

/-- Split a character list on `'/'`. -/
def splitOnSlash : List Char → List (List Char)
  | [] => [[]]
  | c :: cs =>
    match splitOnSlash cs with
    | [] => [[]]
    | seg :: rest => if c = '/' then [] :: seg :: rest else (c :: seg) :: rest

/-- Python `Path(s)`: absolute iff the string starts with `'/'`; segments are the
slash-separated pieces with empty and `"."` pieces dropped. -/
def mkPath (s : String) : PyPath :=
  { absolute := match s.data with | '/' :: _ => true | _ => false
    segs := ((splitOnSlash s.data).map (fun cs => String.mk cs)).filter
      (fun seg => decide (seg ≠ "" ∧ seg ≠ ".")) }

/-- Python `Path(p.as_posix().lstrip("/"))` for an absolute `p`: the same segments,
reinterpreted as a relative path. -/
def stripLeadingSlashes (p : PyPath) : PyPath :=
  { absolute := false, segs := p.segs }

/-- Joining `a / b`: if `b` is absolute it wins, otherwise segments concatenate. -/
def joinPath (a b : PyPath) : PyPath :=
  if b.absolute then b else { absolute := a.absolute, segs := a.segs ++ b.segs }

/-- Lexical `".."` elimination of `.resolve()`: a `".."` segment pops the last
accumulated segment (at the root it is a no-op, as in POSIX). -/
def resolveSegs (segs : List String) : List String :=
  segs.foldl (fun acc seg => if seg = ".." then acc.dropLast else acc ++ [seg]) []

/-- Python `p.resolve()` on an absolute path (symlink-free): canonical absolute path. -/
def pyResolve (p : PyPath) : PyPath :=
  { absolute := true, segs := resolveSegs p.segs }

/-- Python `p.parents`: the proper ancestors of `p`, i.e. every strict prefix of its
segment list (down to the root). -/
def pyParents (p : PyPath) : List PyPath :=
  (List.range p.segs.length).map (fun k => { absolute := p.absolute, segs := p.segs.take k })

/-- Python `p.parent`: the immediate parent directory. -/
def pyParent (p : PyPath) : PyPath :=
  { absolute := p.absolute, segs := p.segs.dropLast }

/-- The source constant `BASE_DIR = Path("/home/dell/mcp-sandbox/")` — the sandbox root. -/
def BASE_DIR : PyPath := mkPath "/home/dell/mcp-sandbox/"

/-- The body of `safe_join_under_base` after the absolute-path rewrite: join
with `BASE_DIR`, canonicalize, and accept only inside the sandbox.  The
rejection condition mirrors the source:
`if BASE_DIR not in full.parents and full != BASE_DIR: raise PermissionError`. -/
def safeJoinFromPath (p : PyPath) : Except String PyPath :=
  let full := pyResolve (joinPath BASE_DIR p)
  if BASE_DIR ∉ pyParents full ∧ full ≠ BASE_DIR then
    Except.error "Path outside sandbox"
  else
    Except.ok full

/-- Python `safe_join_under_base(user_path)`: resolve a user path (absolute or
relative) into a path under `BASE_DIR`, rejecting traversal outside the
sandbox.  An absolute path is first reinterpreted as base-relative by
stripping its leading separator. -/
def safe_join_under_base (user_path : String) : Except String PyPath :=
  let p0 := mkPath user_path
  let p := if p0.absolute then stripLeadingSlashes p0 else p0
  safeJoinFromPath p

/-- Python `path_to_file_uri(p)`. -/
def path_to_file_uri (p : PyPath) : String :=
  "file://" ++ "/" ++ String.intercalate "/" p.segs

/-! ## The sandbox tree as an explicit state

The on-disk tree under (and around) the sandbox root, plus the system clock
read by the `now` tool.  Directories are canonical absolute paths; files carry
their text content (the servers only ever write UTF-8 text; the bytes of a
file are modelled as the UTF-8 bytes of that text). -/

structure World where
  dirs : List (List String)
  files : List (List String × String)
  clock : String
deriving DecidableEq

/-- Content of the file at `p`, if one exists. -/
def fileContent (w : World) (p : List String) : Option String :=
  match w.files.find? (fun f => decide (f.1 = p)) with
  | some f => some f.2
  | none => none

/-- Python `path.exists()`: `p` is a directory or a file. -/
def pathExists (w : World) (p : List String) : Bool :=
  decide (p ∈ w.dirs) || (fileContent w p).isSome

/-- Python `path.mkdir(parents=True, exist_ok=True)`: create `p` and every missing
ancestor (a file already occupying a prefix is not modelled). -/
def mkdirAll (w : World) (p : List String) : World :=
  { w with dirs := w.dirs ++
      (((List.range (p.length + 1)).map (fun k => p.take k)).filter
        (fun d => decide (d ∉ w.dirs))) }

/-- Create or overwrite the file at `p` with `content`. -/
def setFile (w : World) (p : List String) (content : String) : World :=
  { w with files := (w.files.filter (fun f => decide (f.1 ≠ p))) ++ [(p, content)] }

/-- Rewrite a path that lies at or under `src` to lie at or under `dst`. -/
def rebase (src dst p : List String) : List String :=
  if src.isPrefixOf p then dst ++ p.drop src.length else p

/-- Python `src.replace(dst)`: rename `src` (file or directory, subtree included)
to `dst`, overwriting a file already at `dst`. -/
def replacePath (w : World) (src dst : List String) : World :=
  { w with
    dirs := w.dirs.map (rebase src dst)
    files := (w.files.filter (fun f => decide (f.1 ≠ dst))).map
      (fun f => (rebase src dst f.1, f.2)) }

/-! ## Tool results and tool errors -/

/-- One part of a tool result: the `{"type":"text",...}` and
`{"type":"json",...}` dictionaries the servers produce. -/
inductive ContentPart where
  | text (s : String)
  | json (v : JVal)

/-- A Python exception escaping a tool handler. -/
inductive ToolErr where
  | validation (msg : String)   -- ValueError
  | notFound (msg : String)     -- FileNotFoundError
  | notADir (msg : String)      -- NotADirectoryError
  | conflict (msg : String)     -- OSError (directory not empty)
  | typeErr (msg : String)      -- TypeError
  | osErr (msg : String)        -- other OSError (e.g. IsADirectoryError)
  | sandbox (msg : String)      -- PermissionError from safe_join_under_base
deriving DecidableEq

/-- Python `str(e)` of the exception. -/
def ToolErr.message : ToolErr → String
  | .validation m => m
  | .notFound m => m
  | .notADir m => m
  | .conflict m => m
  | .typeErr m => m
  | .osErr m => m
  | .sandbox m => m

/-! ## UTF-8 bytes and base64 (for the binary read path) -/

/-- UTF-8 encoding of a character sequence. -/
def utf8Bytes : List Char → List Nat
  | [] => []
  | c :: cs =>
    let n := c.toNat
    (if n < 0x80 then [n]
     else if n < 0x800 then [0xC0 + n / 0x40, 0x80 + n % 0x40]
     else if n < 0x10000 then
       [0xE0 + n / 0x1000, 0x80 + (n / 0x40) % 0x40, 0x80 + n % 0x40]
     else
       [0xF0 + n / 0x40000, 0x80 + (n / 0x1000) % 0x40,
        0x80 + (n / 0x40) % 0x40, 0x80 + n % 0x40]) ++ utf8Bytes cs

def b64Char (n : Nat) : Char :=
  (("ABCDEFGHIJKLMNOPQRSTUVWXYZabcdefghijklmnopqrstuvwxyz0123456789+/".data).drop n).headD 'A'

def b64Chunks : List Nat → List Char
  | b0 :: b1 :: b2 :: rest =>
    let v := b0 * 65536 + b1 * 256 + b2
    b64Char (v / 262144) :: b64Char ((v / 4096) % 64) ::
      b64Char ((v / 64) % 64) :: b64Char (v % 64) :: b64Chunks rest
  | [b0, b1] =>
    let v := b0 * 65536 + b1 * 256
    [b64Char (v / 262144), b64Char ((v / 4096) % 64), b64Char ((v / 64) % 64), '=']
  | [b0] =>
    let v := b0 * 65536
    [b64Char (v / 262144), b64Char ((v / 4096) % 64), '=', '=']
  | [] => []

/-- Python `base64.b64encode` of the UTF-8 bytes of a string. -/
def b64encode (s : String) : String := String.mk (b64Chunks (utf8Bytes s.data))

/-! ## MIME guessing and text classification -/

/-- Python `pathlib` `suffix` of a file name: the final `"."`-extension, empty for
dotfiles and extensionless names. -/
def extOfName (name : String) : String :=
  match splitAtFirst ['.'] name.data.reverse with
  | none => ""
  | some (revExt, _, restRev) =>
    if restRev = [] then "" else String.mk ('.' :: revExt.reverse)

/-- Python `pathlib` `suffix` of a path. -/
def extOf (p : PyPath) : String := extOfName (p.segs.getLastD "")

/-- Python `mimetypes.guess_type` by extension — a representative fragment of the
standard table (the claims do not depend on the exact table). -/
def guessMime (p : PyPath) : Option String :=
  match extOf p with
  | ".txt" => some "text/plain"
  | ".md" => some "text/markdown"
  | ".html" => some "text/html"
  | ".csv" => some "text/csv"
  | ".json" => some "application/json"
  | ".pdf" => some "application/pdf"
  | ".png" => some "image/png"
  | ".bin" => some "application/octet-stream"
  | _ => none

/-- Python `s.startswith(pre)`. -/
def strStartsWith (s pre : String) : Bool := pre.data.isPrefixOf s.data

/-- Membership of the (lower-cased) extension in the fixed text allow-list. -/
def isTextyExt (path : PyPath) : Bool :=
  decide ((extOf path).toLower ∈
    [".md", ".txt", ".py", ".json", ".csv", ".yaml", ".yml", ".toml", ".ini", ".log"])

/-- Python `is_texty(mime, path)`: a `text/*` MIME guess, or an extension
from the fixed text allow-list. -/
def is_texty (mime : Option String) (path : PyPath) : Bool :=
  match mime with
  | some m => if strStartsWith m "text/" then true else isTextyExt path
  | none => isTextyExt path

/-! ## Argument extraction (Python `dict.get` idioms) -/

/-- Python `args.get(key, dflt)`. -/
def argOr (args : List (String × JVal)) (key : String) (dflt : JVal) : JVal :=
  (lookupField args key).getD dflt

/-- Python `bool(args.get(key))`. -/
def argFlag (args : List (String × JVal)) (key : String) : Bool :=
  pyTruthy (argOr args key .null)

/-- Python `args.get(key, "")` destined for `Path(...)`, which requires a string
(`TypeError` otherwise). -/
def argPathStr (args : List (String × JVal)) (key : String) : Except ToolErr String :=
  match argOr args key (.str "") with
  | .str s => .ok s
  | _ => .error (.typeErr "argument is not a string path")

/-- Python `text.split()`: maximal runs of non-whitespace characters (never empty). -/
def splitWsAux : List Char → List Char → List (List Char)
  | [], cur => if cur.isEmpty then [] else [cur.reverse]
  | c :: cs, cur =>
    if c.isWhitespace then
      if cur.isEmpty then splitWsAux cs [] else cur.reverse :: splitWsAux cs []
    else splitWsAux cs (c :: cur)

def splitWsTokens (cs : List Char) : List (List Char) := splitWsAux cs []

/-- The `{"ok": true}` JSON payload returned by the mutating filesystem tools. -/
def okPayload : List ContentPart := [.json (.obj [("ok", .bool true)])]

/-- Does the directory `p` have any entry (file or directory) strictly below it? -/
def hasChildren (w : World) (p : List String) : Bool :=
  w.dirs.any (fun d => decide (d ≠ p) && p.isPrefixOf d) ||
    w.files.any (fun f => p.isPrefixOf f.1)

/-- Python `path.rmdir()` effect on the model. -/
def removeDir (w : World) (p : List String) : World :=
  { w with dirs := w.dirs.filter (fun d => decide (d ≠ p)) }

/-- Python `path.unlink()` effect on the model. -/
def removeFile (w : World) (p : List String) : World :=
  { w with files := w.files.filter (fun f => decide (f.1 ≠ p)) }

/-! ## The Flask server's tool handler (`mcp_plain_flask_app.call_tool`)

State-passing translation: a raised exception becomes an `Except.error`
carrying the `World` as it stands at the raise site (Python exceptions do not
roll back filesystem effects).  `name` is `Option String` because the
dispatcher can pass `None` through. -/

namespace Flask

def call_tool (w : World) (name : Option String) (args : List (String × JVal)) :
    Except ToolErr (List ContentPart) × World :=
  match name with
  | none => (.error (.validation "Unknown tool: None"), w)
  | some n =>
    if n = "echo" then
      let text := pyStr (argOr args "text" (.str ""))
      (.ok [.text text, .json (.obj [("text", .str text)])], w)
    else if n = "add_numbers" then
      match lookupField args "numbers" with
      | some (.arr nums) =>
        if nums.isEmpty then
          (.error (.validation "numbers must be a non-empty array"), w)
        else
          match floatsOf nums with
          | some qs =>
            let s := qs.sum
            (.ok [.text ("sum = " ++ ratRepr s), .json (.obj [("sum", .num s)])], w)
          | none => (.error (.validation "numbers must contain only numeric values"), w)
      | _ => (.error (.validation "numbers must be a non-empty array"), w)
    else if n = "now" then
      -- zone selection and the invalid-zone fallback both read the World clock
      let iso := w.clock
      (.ok [.text iso, .json (.obj [("iso", .str iso)])], w)
    else if n = "word_count" then
      let text := pyStr (argOr args "text" (.str ""))
      let words := (splitWsTokens text.data).length
      let characters := text.length
      (.ok [.text ("words=" ++ toString words ++ " chars=" ++ toString characters),
            .json (.obj [("words", .num (words : ℚ)), ("characters", .num (characters : ℚ))])], w)
    else if n = "read_file" then
      match argPathStr args "path" with
      | .error e => (.error e, w)
      | .ok raw =>
        match safe_join_under_base raw with
        | .error msg => (.error (.sandbox msg), w)
        | .ok path =>
          match fileContent w path.segs with
          | none => (.error (.notFound "File not found"), w)
          | some content =>
            let mime := guessMime path
            let rel := String.intercalate "/" (path.segs.drop BASE_DIR.segs.length)
            if is_texty mime path then
              (.ok [.json (.obj [("path", .str rel),
                                 ("mimeType", .str (mime.getD "text/plain")),
                                 ("text", .str content)])], w)
            else
              (.ok [.json (.obj [("path", .str rel),
                                 ("mimeType", .str (mime.getD "application/octet-stream")),
                                 ("blob_b64", .str (b64encode content))])], w)
    else if n = "write_file" then
      match argPathStr args "path" with
      | .error e => (.error e, w)
      | .ok raw =>
        match safe_join_under_base raw with
        | .error msg => (.error (.sandbox msg), w)
        | .ok path =>
          let make_parents := argFlag args "make_parents"
          let w1 := if make_parents then mkdirAll w (pyParent path).segs else w
          match argOr args "text" (.str "") with
          | .str text =>
            if decide (path.segs ∈ w1.dirs) then (.error (.osErr "Is a directory"), w1)
            else if decide ((pyParent path).segs ∈ w1.dirs) then
              (.ok okPayload, setFile w1 path.segs text)
            else (.error (.notFound "No such file or directory"), w1)
          | _ => (.error (.typeErr "text must be a string"), w1)
    else if n = "append_file" then
      match argPathStr args "path" with
      | .error e => (.error e, w)
      | .ok raw =>
        match safe_join_under_base raw with
        | .error msg => (.error (.sandbox msg), w)
        | .ok path =>
          let make_parents := argFlag args "make_parents"
          let w1 := if make_parents then mkdirAll w (pyParent path).segs else w
          match argOr args "text" (.str "") with
          | .str text =>
            if decide (path.segs ∈ w1.dirs) then (.error (.osErr "Is a directory"), w1)
            else if decide ((pyParent path).segs ∈ w1.dirs) then
              (.ok okPayload, setFile w1 path.segs ((fileContent w1 path.segs).getD "" ++ text))
            else (.error (.notFound "No such file or directory"), w1)
          | _ => (.error (.typeErr "text must be a string"), w1)
    else if n = "list_dir" then
      match argPathStr args "path" with
      | .error e => (.error e, w)
      | .ok raw =>
        match safe_join_under_base raw with
        | .error msg => (.error (.sandbox msg), w)
        | .ok path =>
          let recursive := argFlag args "recursive"
          if !(decide (path.segs ∈ w.dirs)) then
            (.error (.notADir "Directory not found"), w)
          else
            -- traversal order is filesystem-dependent; modelled as the
            -- World's directory list followed by its file list
            let inScope : List String → Bool := fun p =>
              decide (p ≠ path.segs) && path.segs.isPrefixOf p &&
                (recursive || decide (p.length = path.segs.length + 1))
            let dirEntries := (w.dirs.filter inScope).map (fun p =>
              JVal.obj [("name", .str (String.intercalate "/" (p.drop path.segs.length))),
                        ("is_dir", .bool true), ("size", .num 0),
                        ("uri", .str (path_to_file_uri { absolute := true, segs := p }))])
            let fileEntries := (w.files.filter (fun f => inScope f.1)).map (fun f =>
              JVal.obj [("name", .str (String.intercalate "/" (f.1.drop path.segs.length))),
                        ("is_dir", .bool false),
                        ("size", .num ((utf8Bytes f.2.data).length : ℚ)),
                        ("uri", .str (path_to_file_uri { absolute := true, segs := f.1 }))])
            (.ok [.json (.obj [("entries", .arr (dirEntries ++ fileEntries))])], w)
    else if n = "make_dirs" then
      match argPathStr args "path" with
      | .error e => (.error e, w)
      | .ok raw =>
        match safe_join_under_base raw with
        | .error msg => (.error (.sandbox msg), w)
        | .ok path => (.ok okPayload, mkdirAll w path.segs)
    else if n = "move_path" then
      match argPathStr args "src" with
      | .error e => (.error e, w)
      | .ok rawSrc =>
        match safe_join_under_base rawSrc with
        | .error msg => (.error (.sandbox msg), w)
        | .ok src =>
          match argPathStr args "dst" with
          | .error e => (.error e, w)
          | .ok rawDst =>
            match safe_join_under_base rawDst with
            | .error msg => (.error (.sandbox msg), w)
            | .ok dst =>
              let make_parents := argFlag args "make_parents"
              -- destination parents are created BEFORE the source check
              let w1 := if make_parents then mkdirAll w (pyParent dst).segs else w
              if !pathExists w1 src.segs then
                (.error (.notFound "Source not found"), w1)
              else if !(decide ((pyParent dst).segs ∈ w1.dirs)) then
                (.error (.notFound "No such file or directory"), w1)
              else (.ok okPayload, replacePath w1 src.segs dst.segs)
    else if n = "delete_path" then
      match argPathStr args "path" with
      | .error e => (.error e, w)
      | .ok raw =>
        match safe_join_under_base raw with
        | .error msg => (.error (.sandbox msg), w)
        | .ok path =>
          let confirm := argFlag args "confirm"
          if !confirm then
            (.error (.validation "Refusing to delete without confirm=true"), w)
          else if !pathExists w path.segs then (.ok okPayload, w)
          else if decide (path.segs ∈ w.dirs) then
            if hasChildren w path.segs then (.error (.conflict "Directory not empty"), w)
            else (.ok okPayload, removeDir w path.segs)
          else (.ok okPayload, removeFile w path.segs)
    else (.error (.validation ("Unknown tool: " ++ n)), w)

end Flask

/-! ## The stdio server's tool handler (`mcp/stdin/server.py::call_tool`)

Pure (it has no filesystem tools); the `now` tool reads the given clock. -/

namespace StdioSrv

def call_tool (clock : String) (name : Option String) (args : List (String × JVal)) :
    Except ToolErr (List ContentPart) :=
  match name with
  | none => .error (.validation "Unknown tool: None")
  | some n =>
    if n = "echo" then
      let text := pyStr (argOr args "text" (.str ""))
      .ok [.text text]
    else if n = "add_numbers" then
      match lookupField args "numbers" with
      | some (.arr nums) =>
        if nums.isEmpty then .error (.validation "numbers must be a non-empty array")
        else
          match floatsOf nums with
          | some qs =>
            let s := qs.sum
            .ok [.text ("sum = " ++ ratRepr s), .json (.obj [("sum", .num s)])]
          | none => .error (.validation "numbers must contain only numeric values")
      | _ => .error (.validation "numbers must be a non-empty array")
    else if n = "now" then
      .ok [.text clock, .json (.obj [("iso", .str clock)])]
    else if n = "word_count" then
      let text := pyStr (argOr args "text" (.str ""))
      let words := (splitWsTokens text.data).length
      let characters := text.length
      .ok [.text ("words=" ++ toString words ++ " chars=" ++ toString characters),
           .json (.obj [("words", .num (words : ℚ)), ("characters", .num (characters : ℚ))])]
    else .error (.validation ("Unknown tool: " ++ n))

end StdioSrv

/-! ## Tool descriptors and the two catalogs -/

structure Tool where
  name : String
  description : String
  inputSchema : JVal
  outputSchema : Option JVal := none

/-- Schema `{"type": "object", "properties": ..., "required": ...}`. -/
def objSchemaR (props : List (String × JVal)) (required : List String) : JVal :=
  .obj [("type", .str "object"), ("properties", .obj props),
        ("required", .arr (required.map JVal.str))]

/-- Schema `{"type": "object", "properties": ...}` (no `required` key). -/
def objSchemaP (props : List (String × JVal)) : JVal :=
  .obj [("type", .str "object"), ("properties", .obj props)]

def strProp : JVal := .obj [("type", .str "string")]
def boolProp : JVal := .obj [("type", .str "boolean")]
def intProp : JVal := .obj [("type", .str "integer")]
def numProp : JVal := .obj [("type", .str "number")]

namespace Flask

/-- The Flask server's `list_tools()` catalog. -/
def list_tools : List Tool := [
  { name := "echo", description := "Echo back the provided text.",
    inputSchema := objSchemaR [("text", strProp)] ["text"],
    outputSchema := some (objSchemaR [("text", strProp)] ["text"]) },
  { name := "add_numbers", description := "Return the sum of a list of numbers.",
    inputSchema := objSchemaR
      [("numbers", .obj [("type", .str "array"), ("items", numProp), ("minItems", .num 1)])]
      ["numbers"],
    outputSchema := some (objSchemaR [("sum", numProp)] ["sum"]) },
  { name := "now",
    description := "Return the current datetime in ISO 8601. Optionally pass a timezone like \x27UTC\x27 or \x27Asia/Kolkata\x27.",
    inputSchema := objSchemaP [("timezone", strProp)],
    outputSchema := some (objSchemaR [("iso", strProp)] ["iso"]) },
  { name := "word_count", description := "Count words and characters in the given text.",
    inputSchema := objSchemaR [("text", strProp)] ["text"],
    outputSchema := some (objSchemaR [("words", intProp), ("characters", intProp)]
      ["words", "characters"]) },
  { name := "read_file",
    description := "Read a file under the sandbox root. Returns text (utf-8) or base64 blob.",
    inputSchema := objSchemaR [("path", strProp)] ["path"],
    outputSchema := some (objSchemaR
      [("path", strProp), ("mimeType", strProp), ("text", strProp), ("blob_b64", strProp)]
      ["path", "mimeType"]) },
  { name := "write_file",
    description := "Create or overwrite a file with UTF-8 text content.",
    inputSchema := objSchemaR
      [("path", strProp), ("text", strProp), ("make_parents", boolProp)] ["path", "text"],
    outputSchema := some (objSchemaR [("ok", boolProp)] ["ok"]) },
  { name := "append_file",
    description := "Append UTF-8 text to an existing (or new) file.",
    inputSchema := objSchemaR
      [("path", strProp), ("text", strProp), ("make_parents", boolProp)] ["path", "text"],
    outputSchema := some (objSchemaR [("ok", boolProp)] ["ok"]) },
  { name := "list_dir",
    description := "List entries (files/dirs) under a directory path.",
    inputSchema := objSchemaR [("path", strProp), ("recursive", boolProp)] ["path"],
    outputSchema := some (objSchemaR
      [("entries", .obj [("type", .str "array"),
        ("items", objSchemaR
          [("name", strProp), ("is_dir", boolProp), ("size", intProp), ("uri", strProp)]
          ["name", "is_dir", "uri"])])]
      ["entries"]) },
  { name := "make_dirs",
    description := "Create a directory (and parents). No-op if it already exists.",
    inputSchema := objSchemaR [("path", strProp)] ["path"],
    outputSchema := some (objSchemaR [("ok", boolProp)] ["ok"]) },
  { name := "move_path", description := "Move/rename a file or directory.",
    inputSchema := objSchemaR
      [("src", strProp), ("dst", strProp), ("make_parents", boolProp)] ["src", "dst"],
    outputSchema := some (objSchemaR [("ok", boolProp)] ["ok"]) },
  { name := "delete_path",
    description := "Delete a file or an empty directory. Set confirm=true to proceed.",
    inputSchema := objSchemaR [("path", strProp), ("confirm", boolProp)] ["path", "confirm"],
    outputSchema := some (objSchemaR [("ok", boolProp)] ["ok"]) }]

end Flask

namespace StdioSrv

/-- The stdio server's `list_tools()` catalog (no output schemas). -/
def list_tools : List Tool := [
  { name := "echo", description := "Echo back the provided text.",
    inputSchema := objSchemaR [("text", strProp)] ["text"] },
  { name := "add_numbers", description := "Return the sum of a list of numbers.",
    inputSchema := objSchemaR
      [("numbers", .obj [("type", .str "array"), ("items", numProp), ("minItems", .num 1)])]
      ["numbers"] },
  { name := "now",
    description := "Return the current datetime in ISO 8601. Optionally pass a timezone like \x27UTC\x27 or \x27Asia/Kolkata\x27.",
    inputSchema := objSchemaP [("timezone", strProp)] },
  { name := "word_count", description := "Count words and characters in the given text.",
    inputSchema := objSchemaR [("text", strProp)] ["text"] }]

end StdioSrv

/-! ## The JSON-RPC dispatcher (`mcp_plain_flask_app.mcp_endpoint`) -/

/-- A decoded JSON-RPC request object (`{method, params, id}`). -/
structure RpcReq where
  method : String
  params : List (String × JVal)
  id : JVal

/-- A JSON-RPC response: exactly one of `{id, result}` or
`{id, error: {code, message}}`. -/
inductive RpcResp where
  | result (v : JVal) (id : JVal)
  | error (code : Int) (message : String) (id : JVal)

/-- The `jsonrpc_error` code chosen by the `except` clauses of `mcp_endpoint`:
`PermissionError` → `-32001`; every other exception falls through to the
generic `except Exception` → `-32000`. -/
def errCode : ToolErr → Int
  | .sandbox _ => -32001
  | _ => -32000

/-- Python `params.get("name") or params.get("toolName")` (`or`: a falsy
`name` value falls through to the legacy key). -/
def toolNameVal (params : List (String × JVal)) : Option JVal :=
  match lookupField params "name" with
  | some v => if pyTruthy v then some v else lookupField params "toolName"
  | none => lookupField params "toolName"

/-- The tool-name value as the string `call_tool` compares against: a
non-string value can never equal a tool name (its rendering is used only in
the unknown-tool message). -/
def toolNameArg (params : List (String × JVal)) : Option String :=
  match toolNameVal params with
  | some v => some (pyStr v)
  | none => none

/-- Python `params.get("arguments", {}) or {}` (a truthy non-dict value would only
fail later inside the handler; not modelled). -/
def argumentsArg (params : List (String × JVal)) : List (String × JVal) :=
  match lookupField params "arguments" with
  | some (.obj fields) => fields
  | _ => []

/-- Serialization of one content part back to a JSON dictionary. -/
def partToJVal : ContentPart → JVal
  | .text s => .obj [("type", .str "text"), ("text", .str s)]
  | .json v => .obj [("type", .str "json"), ("json", v)]

/-- The `result` payload of a successful `tools/call`. -/
def callResultJson (parts : List ContentPart) : JVal :=
  .obj [("content", .arr (parts.map partToJVal))]

/-- The `serialized_tools` of the `tools/list` branch (`outputSchema` included
only when present and truthy). -/
def serializeTool (t : Tool) : JVal :=
  .obj ([("name", .str t.name), ("description", .str t.description),
         ("inputSchema", t.inputSchema)] ++
    (match t.outputSchema with
     | some o => if pyTruthy o then [("outputSchema", o)] else []
     | none => []))

/-- The `initialize` result (server identity plus the capability flags the
shim `get_capabilities` returns). -/
def initializeResult : JVal :=
  .obj [("serverInfo", .obj [("name", .str "mcp-fs-server"), ("version", .str "0.2.0")]),
        ("capabilities", .obj
          [("tools", .obj [("listChanged", .bool false)]),
           ("resources", .obj [("subscribe", .bool false), ("listChanged", .bool false)])])]

/-- The static `resources/templates/list` payload. -/
def resourceTemplates : JVal :=
  .arr [.obj [("uriTemplate", .str "file:///\x7brelative_path\x7d"),
              ("name", .str "Sandbox files"),
              ("title", .str "Files under sandbox root"),
              ("description", .str "Access files under the configured BASE_DIR"),
              ("mimeType", .str "application/octet-stream")]]

/-- The `resources/read` branch after method routing. -/
def resourcesRead (w : World) (params : List (String × JVal)) (rid : JVal) : RpcResp :=
  let uriVal := (lookupField params "uri").getD .null
  match uriVal with
  | .str uri =>
    if uri = "" then .error (-32602) "Missing \x27uri\x27" rid
    else if !strStartsWith uri "file://" then
      .error (-32602) "Only file:// URIs are supported" rid
    else
      let raw := String.mk (uri.data.drop 7)
      match safe_join_under_base raw with
      | .error msg => .error (-32001) msg rid  -- PermissionError, outer handler
      | .ok path =>
        match fileContent w path.segs with
        | none => .error (-32002) "Resource not found" rid
        | some content =>
          let mime := guessMime path
          let nm := path.segs.getLastD ""
          if is_texty mime path then
            .result (.obj [("contents", .arr [.obj
              [("uri", .str uri), ("name", .str nm),
               ("mimeType", .str (mime.getD "text/plain")),
               ("text", .str content)]])]) rid
          else
            .result (.obj [("contents", .arr [.obj
              [("uri", .str uri), ("name", .str nm),
               ("mimeType", .str (mime.getD "application/octet-stream")),
               ("blob", .str (b64encode content))]])]) rid
  | _ => .error (-32602) "Missing \x27uri\x27" rid

/-- The `/mcp` endpoint: route by method name, convert every handler
exception into a JSON-RPC error envelope. -/
def mcp_endpoint (w : World) (req : RpcReq) : RpcResp × World :=
  if req.method = "initialize" then (.result initializeResult req.id, w)
  else if req.method = "tools/list" then
    (.result (.obj [("tools", .arr (Flask.list_tools.map serializeTool))]) req.id, w)
  else if req.method = "tools/call" then
    match Flask.call_tool w (toolNameArg req.params) (argumentsArg req.params) with
    | (.ok parts, w') => (.result (callResultJson parts) req.id, w')
    | (.error e, w') => (.error (errCode e) e.message req.id, w')
  else if req.method = "resources/list" then
    let items := (w.files.filter (fun f => BASE_DIR.segs.isPrefixOf f.1)).map (fun f =>
      JVal.obj [("uri", .str (path_to_file_uri { absolute := true, segs := f.1 })),
                ("name", .str (f.1.getLastD "")), ("title", .str (f.1.getLastD "")),
                ("mimeType", .str ((guessMime { absolute := true, segs := f.1 }).getD
                  "application/octet-stream"))])
    (.result (.obj [("resources", .arr items)]) req.id, w)
  else if req.method = "resources/read" then (resourcesRead w req.params req.id, w)
  else if req.method = "resources/templates/list" then
    (.result (.obj [("resourceTemplates", resourceTemplates)]) req.id, w)
  else (.error (-32601) ("Method not found: " ++ req.method) req.id, w)

/-! ## The OpenAI bridge (`mcp_openai_bridge.py`)

The oracle (the chat-completions service) and the HTTP transport to the MCP
server are external I/O; they enter the model as function parameters.  The
loop itself — round bound, message appending, payload derivation, error
downgrading — is translated from `run_chat`. -/

namespace Bridge

/-- The JSON-RPC method name `mcp_list_tools` sends. -/
def listToolsMethod : String := "listTools"

/-- The JSON-RPC method name `mcp_call_tool` sends. -/
def callToolMethod : String := "callTool"

/-- One tool call requested by the oracle
(`{callId, toolName, argumentsJson}`). -/
structure ToolCallReq where
  id : String
  name : String
  argumentsJson : String
deriving DecidableEq

/-- One oracle response: optional assistant text plus requested tool calls
(`msg.tool_calls or []` makes a missing list empty). -/
structure OracleResp where
  content : Option String
  tool_calls : List ToolCallReq

/-- One conversation message as the bridge builds them. -/
structure Msg where
  role : String
  content : String
  tool_call_id : Option String := none
  name : Option String := none
  tool_calls : List ToolCallReq := []
deriving DecidableEq

/-- A tool spec in the oracle's function-calling format. -/
structure OpenAITool where
  name : String
  description : String
  parameters : JVal

/-- Bridge `to_openai_tools`: translate MCP tool dictionaries into the oracle's
format (`t["name"]`, `t.get("description") or ""`,
`t.get("inputSchema") or {"type": "object", "properties": {}}`). -/
def to_openai_tools (mcp_tools : List (List (String × JVal))) : List OpenAITool :=
  mcp_tools.map (fun t =>
    { name := match lookupField t "name" with | some (.str s) => s | _ => ""
      description := match lookupField t "description" with
        | some v => if pyTruthy v then pyStr v else ""
        | none => ""
      parameters := match lookupField t "inputSchema" with
        | some v => if pyTruthy v then v else objSchemaP []
        | none => objSchemaP [] })

/-- The scan over `mcp_result["content"]` (lines 87–93 of the bridge):
collect the text parts in order, and remember the value of each `json` part —
a later `json` part OVERWRITES an earlier one. -/
def scanParts (parts : List ContentPart) : List String × Option JVal :=
  parts.foldl (fun acc part =>
    match part with
    | .json v => (acc.1, some v)
    | .text s => (acc.1 ++ [s], acc.2)) ([], none)

/-- The `content_for_model` derivation (lines 96–101): serialize the remembered json value
if any part was a `json` part, otherwise join the non-empty text parts with
newlines. -/
def derive_payload (parts : List ContentPart) : String :=
  match (scanParts parts).2 with
  | some v => dumps v
  | none => String.intercalate "\n" ((scanParts parts).1.filter (fun tp => decide (tp ≠ "")))

/-- The tool-turn message appended for one requested call: on success the
derived payload (`content_for_model or ""` leaves an empty join empty), on
any exception a `{"error": str(e)}` payload instead. -/
def tool_turn (callTool : String → String → Except String (List ContentPart))
    (tc : ToolCallReq) : Msg :=
  match callTool tc.name tc.argumentsJson with
  | .ok parts =>
    { role := "tool", tool_call_id := some tc.id, name := some tc.name,
      content := derive_payload parts }
  | .error e =>
    { role := "tool", tool_call_id := some tc.id, name := some tc.name,
      content := dumps (.obj [("error", .str e)]) }

/-- The assistant turn recording the requested calls
(`{"role": "assistant", "content": msg.content or "", "tool_calls": ...}`). -/
def assistant_turn (resp : OracleResp) : Msg :=
  { role := "assistant", content := resp.content.getD "", tool_calls := resp.tool_calls }

/-- The fixed fallback answer returned when the round bound is exhausted. -/
def FALLBACK_ANSWER : String :=
  "Sorry—too many tool-calling steps without reaching a final answer."

/-- The seeded conversation: a system instruction then the user prompt. -/
def initialMessages (system prompt : String) : List Msg :=
  [{ role := "system", content := system }, { role := "user", content := prompt }]

/-- The `for _ in range(8)` loop of `run_chat`, instrumented for the
termination claims: the result triple is the returned answer, the number of
oracle round-trips performed, and the number of tool invocations performed. -/
def run_chat_loop (oracle : List Msg → OracleResp)
    (callTool : String → String → Except String (List ContentPart)) :
    Nat → List Msg → String × Nat × Nat
  | 0, _ => (FALLBACK_ANSWER, 0, 0)
  | fuel + 1, messages =>
    let resp := oracle messages
    if resp.tool_calls.isEmpty then (resp.content.getD "", 1, 0)
    else
      let messages' := messages ++ [assistant_turn resp] ++
        resp.tool_calls.map (tool_turn callTool)
      let rest := run_chat_loop oracle callTool fuel messages'
      (rest.1, rest.2.1 + 1, rest.2.2 + resp.tool_calls.length)

/-- Bridge `run_chat(prompt, system)`.  The tool catalog `mcp_tools` stands for the
result of the initial `mcp_list_tools()` HTTP fetch (per the C3 theorem that
fetch in fact fails against the bundled server); the oracle receives the
translated tool specs once, as in the source, where `tools` is fixed across
rounds. -/
def run_chat (mcp_tools : List (List (String × JVal)))
    (oracle : List OpenAITool → List Msg → OracleResp)
    (callTool : String → String → Except String (List ContentPart))
    (prompt : String) (system : String) : String × Nat × Nat :=
  let tools := to_openai_tools mcp_tools
  run_chat_loop (oracle tools) callTool 8 (initialMessages system prompt)

end Bridge

/-! ## Observation helpers and concrete fixtures used by the theorems -/

/-- Does a result contain any `json` part? -/
def hasJsonPart : List ContentPart → Bool
  | [] => false
  | .json _ :: _ => true
  | .text _ :: rest => hasJsonPart rest

/-- The value of the FIRST `json` part, if any. -/
def firstJson : List ContentPart → Option JVal
  | [] => none
  | .json v :: _ => some v
  | .text _ :: rest => firstJson rest

/-- The value of the LAST `json` part, if any. -/
def lastJson : List ContentPart → Option JVal
  | [] => none
  | .json v :: rest => some ((lastJson rest).getD v)
  | .text _ :: rest => lastJson rest

/-- The text parts, in order. -/
def textsOf : List ContentPart → List String
  | [] => []
  | .text s :: rest => s :: textsOf rest
  | .json _ :: rest => textsOf rest

/-- How many `json` parts a result contains. -/
def countJson : List ContentPart → Nat
  | [] => 0
  | .json _ :: rest => countJson rest + 1
  | .text _ :: rest => countJson rest

/-- A small sandbox world: the root (with its ancestors) exists and nothing
else does. -/
def w0 : World :=
  { dirs := [[], ["home"], ["home", "dell"], BASE_DIR.segs],
    files := [], clock := "2026-01-01T00:00:00" }

/-- The `required` list of an object schema. -/
def requiredOf (schema : JVal) : List String :=
  match schema with
  | .obj fields =>
    match lookupField fields "required" with
    | some (.arr l) => l.filterMap (fun v => match v with | .str s => some s | _ => none)
    | _ => []
  | _ => []

/-- An oracle stub that requests the same tool call on every round. -/
def alwaysCallOracle : List Bridge.OpenAITool → List Bridge.Msg → Bridge.OracleResp :=
  fun _ _ => { content := none, tool_calls := [⟨"c1", "echo", "\x7b\x7d"⟩] }

/-- An oracle stub that answers directly with no tool calls. -/
def directOracle : List Bridge.OpenAITool → List Bridge.Msg → Bridge.OracleResp :=
  fun _ _ => { content := some "42", tool_calls := [] }

/-- A transport stub for `mcp_call_tool` that always fails (as the real one
does against the bundled server, per the C3 theorem). -/
def downTransport : String → String → Except String (List ContentPart) :=
  fun _ _ => .error "MCP error -32601: Method not found: callTool"

/-! ## Supporting lemmas -/

lemma scanParts_go (parts : List ContentPart) (acc : List String × Option JVal) :
    parts.foldl (fun acc part =>
      match part with
      | .json v => (acc.1, some v)
      | .text s => (acc.1 ++ [s], acc.2)) acc =
    (acc.1 ++ textsOf parts, (lastJson parts).elim acc.2 some) := by
  induction parts generalizing acc with
  | nil => simp [textsOf, lastJson]
  | cons p rest ih =>
    cases p with
    | json v =>
      simp only [List.foldl_cons, textsOf, lastJson, ih]
      cases lastJson rest <;> simp
    | text s =>
      simp only [List.foldl_cons, textsOf, lastJson, ih]
      simp

lemma scanParts_eq (parts : List ContentPart) :
    Bridge.scanParts parts = (textsOf parts, lastJson parts) := by
  unfold Bridge.scanParts
  rw [scanParts_go]
  cases lastJson parts <;> simp

lemma lastJson_eq_none_of_countJson_zero (parts : List ContentPart)
    (h : countJson parts = 0) : lastJson parts = none := by
  induction parts with
  | nil => rfl
  | cons p rest ih =>
    cases p with
    | json v => simp [countJson] at h
    | text s => simp only [countJson] at h; simp [lastJson, ih h]

lemma firstJson_eq_lastJson_of_le_one (parts : List ContentPart)
    (h : countJson parts ≤ 1) : firstJson parts = lastJson parts := by
  induction parts with
  | nil => rfl
  | cons p rest ih =>
    cases p with
    | json v =>
      simp only [countJson] at h
      have h0 : countJson rest = 0 := by omega
      simp [firstJson, lastJson, lastJson_eq_none_of_countJson_zero rest h0]
    | text s =>
      simp only [countJson] at h
      simp [firstJson, lastJson, ih h]

lemma safeJoinFromPath_sound (p q : PyPath)
    (hq : safeJoinFromPath p = Except.ok q) :
    q = BASE_DIR ∨ BASE_DIR ∈ pyParents q := by
  simp only [safeJoinFromPath] at hq
  split at hq
  · exact absurd hq (by simp)
  · rename_i h
    rw [Except.ok.injEq] at hq
    subst hq
    tauto

lemma run_chat_loop_rounds_le (oracle : List Bridge.Msg → Bridge.OracleResp)
    (callTool : String → String → Except String (List ContentPart))
    (fuel : Nat) (messages : List Bridge.Msg) :
    (Bridge.run_chat_loop oracle callTool fuel messages).2.1 ≤ fuel := by
  induction fuel generalizing messages with
  | zero => simp [Bridge.run_chat_loop]
  | succ n ih =>
    simp only [Bridge.run_chat_loop]
    split
    · simp
    · simpa using Nat.succ_le_succ (ih _)

lemma run_chat_loop_always_tools (oracle : List Bridge.Msg → Bridge.OracleResp)
    (callTool : String → String → Except String (List ContentPart))
    (halways : ∀ msgs, (oracle msgs).tool_calls ≠ []) (fuel : Nat)
    (messages : List Bridge.Msg) :
    (Bridge.run_chat_loop oracle callTool fuel messages).1 = Bridge.FALLBACK_ANSWER ∧
    (Bridge.run_chat_loop oracle callTool fuel messages).2.1 = fuel := by
  induction fuel generalizing messages with
  | zero => exact ⟨rfl, rfl⟩
  | succ n ih =>
    have h : ¬((oracle messages).tool_calls.isEmpty = true) := by
      simpa [List.isEmpty_iff] using halways messages
    simp only [Bridge.run_chat_loop, if_neg h]
    exact ⟨(ih _).1, by simpa using (ih _).2⟩

lemma run_chat_loop_first_final (oracle : List Bridge.Msg → Bridge.OracleResp)
    (callTool : String → String → Except String (List ContentPart))
    (fuel : Nat) (messages : List Bridge.Msg)
    (h : (oracle messages).tool_calls = []) :
    Bridge.run_chat_loop oracle callTool (fuel + 1) messages =
      ((oracle messages).content.getD "", 1, 0) := by
  simp [Bridge.run_chat_loop, h]

/-! ## C1 -/

/-- C1: `safe_join_under_base` only ever returns the sandbox root itself or a
strict descendant of it (otherwise it raises `PermissionError`), and an
absolute user path is reinterpreted as rooted under the sandbox by stripping
its leading separator before the join and canonicalization. -/
theorem safe_join_under_base_never_escapes (user_path : String) :
    (∀ q, safe_join_under_base user_path = Except.ok q →
        q = BASE_DIR ∨ BASE_DIR ∈ pyParents q) ∧
    ((mkPath user_path).absolute = true →
      safe_join_under_base user_path =
        safeJoinFromPath (stripLeadingSlashes (mkPath user_path))) := by
  constructor
  · intro q hq
    simp only [safe_join_under_base] at hq
    exact safeJoinFromPath_sound _ _ hq
  · intro h
    simp only [safe_join_under_base]
    rw [if_pos h]

/-- C1 witness: the absolute path `/etc/passwd` is accepted, lands strictly
under the sandbox root, and goes through the leading-separator strip. -/
theorem safe_join_under_base_never_escapes_witness :
    (({ absolute := true, segs := ["home", "dell", "mcp-sandbox", "etc", "passwd"] } : PyPath) = BASE_DIR ∨
      BASE_DIR ∈ pyParents { absolute := true, segs := ["home", "dell", "mcp-sandbox", "etc", "passwd"] }) ∧
    safe_join_under_base "/etc/passwd" =
      safeJoinFromPath (stripLeadingSlashes (mkPath "/etc/passwd")) :=
  ⟨(safe_join_under_base_never_escapes "/etc/passwd").1 _ (by rfl),
   (safe_join_under_base_never_escapes "/etc/passwd").2 (by rfl)⟩

/-! ## C2 -/

/-- C2 counterexample: on a successful tool call whose result carries two
Json parts, the tool-turn content appended by the bridge serializes the LAST
Json part, which differs from the serialization of the first. -/
theorem tool_turn_serializes_last_json_not_first :
    (Bridge.tool_turn
        (fun _ _ => .ok [.json (.str "first"), .json (.str "second")])
        { id := "call-1", name := "t", argumentsJson := "" }).content =
      dumps (.str "second") ∧
    dumps (.str "second") ≠ dumps (.str "first") := by
  refine ⟨rfl, ?_⟩
  simp [dumps]

/-- C2 amended: the payload appended for a successful tool call is the
serialization of the LAST Json part when any Json part exists (this
coincides with the first whenever the result holds at most one Json part, as
every bundled tool's results do), and otherwise the newline-join of the
non-empty Text parts. -/
theorem tool_turn_payload_spec (callTool : String → String → Except String (List ContentPart))
    (tc : Bridge.ToolCallReq) (parts : List ContentPart)
    (h : callTool tc.name tc.argumentsJson = .ok parts) :
    (Bridge.tool_turn callTool tc).content =
      (match lastJson parts with
       | some v => dumps v
       | none => String.intercalate "\n" ((textsOf parts).filter (fun tp => decide (tp ≠ "")))) ∧
    (countJson parts ≤ 1 → firstJson parts = lastJson parts) := by
  constructor
  · simp only [Bridge.tool_turn, h, Bridge.derive_payload, scanParts_eq]
  · exact firstJson_eq_lastJson_of_le_one parts

/-- C2 witness: a concrete one-Json-part result (the shape every bundled
tool produces) has its Json part serialized as the payload, and its first
and last Json parts coincide. -/
theorem tool_turn_payload_spec_witness :
    (Bridge.tool_turn (fun _ _ => .ok [.text "sum = 5", .json (.obj [("sum", .num 5)])])
        { id := "c1", name := "add_numbers", argumentsJson := "" }).content =
      dumps (.obj [("sum", .num 5)]) ∧
    firstJson [ContentPart.text "sum = 5", .json (.obj [("sum", .num 5)])] =
      lastJson [ContentPart.text "sum = 5", .json (.obj [("sum", .num 5)])] := by
  have h := tool_turn_payload_spec
    (fun _ _ => .ok [.text "sum = 5", .json (.obj [("sum", .num 5)])])
    { id := "c1", name := "add_numbers", argumentsJson := "" } _ rfl
  exact ⟨h.1, h.2 (by decide)⟩

/-! ## C3 -/

/-- C3: the JSON-RPC method names the bridge sends (`listTools`, `callTool`)
are not in the Flask dispatcher's routing table — both requests come back as
MethodNotFound (-32601), so the bridge's catalog fetch and tool invocation
against the bundled server fail rather than succeed. -/
theorem bridge_method_names_not_routed :
    (mcp_endpoint w0 { method := Bridge.listToolsMethod, params := [], id := .num 1 }).1 =
      .error (-32601) ("Method not found: " ++ Bridge.listToolsMethod) (.num 1) ∧
    (mcp_endpoint w0
        ⟨Bridge.callToolMethod,
         [("toolName", .str "echo"), ("arguments", .obj [("text", .str "hi")])],
         .num 2⟩).1 =
      .error (-32601) ("Method not found: " ++ Bridge.callToolMethod) (.num 2) := by
  exact ⟨rfl, rfl⟩

/-- The routed (non-legacy) method names, for contrast with C3: `tools/list`
succeeds, and `tools/call` with the same legacy `toolName` parameter (which
the dispatcher DOES accept at the parameter level) succeeds too. -/
theorem routed_method_names_succeed :
    (mcp_endpoint w0 { method := "tools/list", params := [], id := .num 1 }).1 =
      .result (.obj [("tools", .arr (Flask.list_tools.map serializeTool))]) (.num 1) ∧
    (mcp_endpoint w0
        ⟨"tools/call",
         [("toolName", .str "echo"), ("arguments", .obj [("text", .str "hi")])],
         .num 2⟩).1 =
      .result (callResultJson [.text "hi", .json (.obj [("text", .str "hi")])]) (.num 2) := by
  exact ⟨rfl, rfl⟩

/-! ## C4 -/

/-- C4 counterexample: `move_path` with a missing source but
`make_parents=true` fails with NotFound AND has already created the
destination's parent directories — the state is mutated before the failure. -/
theorem move_path_mutates_before_notfound :
    (Flask.call_tool w0 (some "move_path")
        [("src", .str "missing.txt"), ("dst", .str "d1/d2/out.txt"),
         ("make_parents", .bool true)]).1 =
      .error (.notFound "Source not found") ∧
    (Flask.call_tool w0 (some "move_path")
        [("src", .str "missing.txt"), ("dst", .str "d1/d2/out.txt"),
         ("make_parents", .bool true)]).2 ≠ w0 := by
  refine ⟨rfl, ?_⟩
  decide

/-- C4 amended: a `move_path` whose source does not exist fails with
NotFound; with `make_parents` false (or absent) the filesystem is left
untouched, but with `make_parents` true the destination's parent directories
have already been created when the failure is raised. -/
theorem move_path_missing_source (w : World) (src dst : String) (mp : Bool)
    (srcP dstP : PyPath)
    (hs : safe_join_under_base src = .ok srcP)
    (hd : safe_join_under_base dst = .ok dstP)
    (hmiss : pathExists (if mp then mkdirAll w (pyParent dstP).segs else w) srcP.segs = false) :
    Flask.call_tool w (some "move_path")
        [("src", .str src), ("dst", .str dst), ("make_parents", .bool mp)] =
      (.error (.notFound "Source not found"),
        if mp then mkdirAll w (pyParent dstP).segs else w) ∧
    (mp = false → (if mp then mkdirAll w (pyParent dstP).segs else w) = w) := by
  constructor
  · have hred : Flask.call_tool w (some "move_path")
        [("src", .str src), ("dst", .str dst), ("make_parents", .bool mp)] =
        (match safe_join_under_base src with
         | .error msg => (.error (.sandbox msg), w)
         | .ok srcQ =>
           match safe_join_under_base dst with
           | .error msg => (.error (.sandbox msg), w)
           | .ok dstQ =>
             let w1 := if mp then mkdirAll w (pyParent dstQ).segs else w
             if !pathExists w1 srcQ.segs then (.error (.notFound "Source not found"), w1)
             else if !(decide ((pyParent dstQ).segs ∈ w1.dirs)) then
               (.error (.notFound "No such file or directory"), w1)
             else (.ok okPayload, replacePath w1 srcQ.segs dstQ.segs)) := rfl
    rw [hred, hs, hd]
    simp [hmiss]
  · intro h
    simp [h]

/-! ## C5 -/

/-- C5 counterexample: a missing file surfaces from `tools/call read_file`
with code -32000 — the very code an unknown tool (a generic internal error)
receives — so a caller cannot distinguish a missing resource from an
internal error by code alone. -/
theorem notfound_shares_internal_error_code :
    (mcp_endpoint w0
        ⟨"tools/call",
         [("name", .str "read_file"), ("arguments", .obj [("path", .str "nope.txt")])],
         .num 1⟩).1 = .error (-32000) "File not found" (.num 1) ∧
    (mcp_endpoint w0
        ⟨"tools/call", [("name", .str "no_such_tool"), ("arguments", .obj [])],
         .num 2⟩).1 = .error (-32000) "Unknown tool: no_such_tool" (.num 2) :=
  ⟨rfl, rfl⟩

/-- C5 amended: sandbox violations carry the distinct code -32001, and a
missing resource through `resources/read` carries -32002, but NotFound
raised inside a tool handler (read_file, move_path) falls through to the
generic exception handler and shares the internal-error code -32000. -/
theorem error_code_taxonomy (w : World) (req : RpcReq) :
    (req.method = "tools/call" →
      ∀ e w', Flask.call_tool w (toolNameArg req.params) (argumentsArg req.params) =
          (.error e, w') →
        (mcp_endpoint w req).1 = .error (errCode e) e.message req.id ∧
        (errCode e = -32001 ↔ ∃ m, e = .sandbox m) ∧
        (∀ m, e = .notFound m → errCode e = -32000)) ∧
    (req.method = "resources/read" →
      ∀ u p, (lookupField req.params "uri").getD .null = .str u →
        u ≠ "" → strStartsWith u "file://" = true →
        safe_join_under_base (String.mk (u.data.drop 7)) = .ok p →
        fileContent w p.segs = none →
        (mcp_endpoint w req).1 = .error (-32002) "Resource not found" req.id) := by
  constructor
  · intro hm e w' hcall
    refine ⟨?_, ?_, ?_⟩
    · simp [mcp_endpoint, hm, hcall]
    · cases e <;> simp [errCode]
    · intro m hmm
      subst hmm
      rfl
  · intro hm u p hu hne hsw hsj hfc
    simp [mcp_endpoint, hm, resourcesRead, hu, hne, hsw, hsj, hfc]

/-- C5 witness: a traversal attempt gets -32001 and a missing resource read
gets -32002 (distinct from each other and from -32000). -/
theorem error_code_taxonomy_witness :
    (mcp_endpoint w0
        ⟨"tools/call",
         [("name", .str "read_file"),
          ("arguments", .obj [("path", .str "../../../etc/shadow")])],
         .num 7⟩).1 = .error (-32001) "Path outside sandbox" (.num 7) ∧
    (mcp_endpoint w0
        ⟨"resources/read", [("uri", .str "file://missing.txt")], .num 8⟩).1 =
      .error (-32002) "Resource not found" (.num 8) := by
  constructor
  · exact ((error_code_taxonomy w0 _).1 rfl (.sandbox "Path outside sandbox") w0 (by rfl)).1
  · exact (error_code_taxonomy w0 _).2 rfl "file://missing.txt"
      { absolute := true, segs := BASE_DIR.segs ++ ["missing.txt"] }
      rfl (by decide) rfl (by rfl) rfl

/-! ## C6 -/

/-- C6 counterexample: `["2", "3"]` contains only strings — non-numeric JSON
elements — yet `add_numbers` returns their sum instead of raising
ValidationError, because Python `float()` accepts numeric strings. -/
theorem add_numbers_accepts_numeric_strings :
    Flask.call_tool w0 (some "add_numbers") [("numbers", .arr [.str "2", .str "3"])] =
      (.ok [.text ("sum = " ++ ratRepr (List.sum [2, 3])),
            .json (.obj [("sum", .num (List.sum [2, 3]))])], w0) ∧
    List.sum [(2 : ℚ), 3] = 5 :=
  ⟨rfl, by norm_num⟩

/-- C6 amended: `add_numbers` returns the floating-point sum whenever every
element converts under Python `float()` (which accepts numbers, booleans,
and numeric strings); it raises ValidationError exactly when the array is
missing, not a list, empty, or some element fails `float()` conversion. -/
theorem add_numbers_spec (w : World) (args : List (String × JVal)) :
    (∀ nums qs, lookupField args "numbers" = some (.arr nums) → nums ≠ [] →
       floatsOf nums = some qs →
       Flask.call_tool w (some "add_numbers") args =
         (.ok [.text ("sum = " ++ ratRepr qs.sum), .json (.obj [("sum", .num qs.sum)])], w)) ∧
    (∀ nums, lookupField args "numbers" = some (.arr nums) → nums ≠ [] →
       floatsOf nums = none →
       (Flask.call_tool w (some "add_numbers") args).1 =
         .error (.validation "numbers must contain only numeric values")) ∧
    (∀ nums, lookupField args "numbers" = some (.arr nums) → nums = [] →
       (Flask.call_tool w (some "add_numbers") args).1 =
         .error (.validation "numbers must be a non-empty array")) ∧
    ((∀ nums, lookupField args "numbers" ≠ some (.arr nums)) →
       (Flask.call_tool w (some "add_numbers") args).1 =
         .error (.validation "numbers must be a non-empty array")) := by
  refine ⟨?_, ?_, ?_, ?_⟩
  · intro nums qs hl hne hf
    simp [Flask.call_tool, hl, hne, hf]
  · intro nums hl hne hf
    simp [Flask.call_tool, hl, hne, hf]
  · intro nums hl he
    subst he
    simp [Flask.call_tool, hl]
  · intro h
    rcases hl : lookupField args "numbers" with _ | v
    · simp [Flask.call_tool, hl]
    · cases v with
      | arr nums => exact absurd hl (h nums)
      | null => simp [Flask.call_tool, hl]
      | bool b => simp [Flask.call_tool, hl]
      | num q => simp [Flask.call_tool, hl]
      | str s => simp [Flask.call_tool, hl]
      | obj fields => simp [Flask.call_tool, hl]

/-- C6 witness: `[1, 2, 3.5]` sums to `6.5`; `[]` and `["x"]` both raise
ValidationError. -/
theorem add_numbers_spec_witness :
    Flask.call_tool w0 (some "add_numbers")
        [("numbers", .arr [.num 1, .num 2, .num (7/2)])] =
      (.ok [.text ("sum = " ++ ratRepr (List.sum [1, 2, 7/2])),
            .json (.obj [("sum", .num (List.sum [1, 2, 7/2]))])], w0) ∧
    List.sum [(1 : ℚ), 2, 7/2] = 13/2 ∧
    (Flask.call_tool w0 (some "add_numbers") [("numbers", .arr [])]).1 =
      .error (.validation "numbers must be a non-empty array") ∧
    (Flask.call_tool w0 (some "add_numbers") [("numbers", .arr [.str "x"])]).1 =
      .error (.validation "numbers must contain only numeric values") := by
  refine ⟨(add_numbers_spec w0 _).1 _ _ rfl (by simp) rfl, by norm_num, ?_, ?_⟩
  · exact (add_numbers_spec w0 _).2.2.1 _ rfl rfl
  · exact (add_numbers_spec w0 _).2.1 _ rfl (by simp) rfl

/-! ## C7 -/

/-- C7: on a `tools/call` request, every exception a tool handler raises is
converted at the dispatcher boundary into a JSON-RPC error envelope carrying
the request id (never propagated), and an unrecognized tool name always
raises such a handler error (`Unknown tool: ...`). -/
theorem dispatcher_converts_handler_errors (w : World) (req : RpcReq)
    (hm : req.method = "tools/call") :
    (∀ e w', Flask.call_tool w (toolNameArg req.params) (argumentsArg req.params) =
        (.error e, w') →
      mcp_endpoint w req = (.error (errCode e) e.message req.id, w')) ∧
    (∀ n, toolNameArg req.params = some n →
      n ∉ Flask.list_tools.map Tool.name →
      (Flask.call_tool w (some n) (argumentsArg req.params)).1 =
        .error (.validation ("Unknown tool: " ++ n))) := by
  constructor
  · intro e w' hcall
    simp [mcp_endpoint, hm, hcall]
  · intro n hn hmem
    have hnames : Flask.list_tools.map Tool.name =
        ["echo", "add_numbers", "now", "word_count", "read_file", "write_file",
         "append_file", "list_dir", "make_dirs", "move_path", "delete_path"] := rfl
    rw [hnames] at hmem
    simp only [List.mem_cons, List.not_mem_nil, or_false, not_or] at hmem
    obtain ⟨h1, h2, h3, h4, h5, h6, h7, h8, h9, h10, h11⟩ := hmem
    simp [Flask.call_tool, h1, h2, h3, h4, h5, h6, h7, h8, h9, h10, h11]

/-- C7 witness: calling the unknown tool `frobnicate` produces an error
envelope with the request id, not a transport failure. -/
theorem dispatcher_converts_handler_errors_witness :
    mcp_endpoint w0 ⟨"tools/call", [("name", .str "frobnicate")], .num 3⟩ =
      (.error (-32000) "Unknown tool: frobnicate" (.num 3), w0) ∧
    (Flask.call_tool w0 (some "frobnicate") []).1 =
      .error (.validation "Unknown tool: frobnicate") := by
  constructor
  · exact (dispatcher_converts_handler_errors w0
      ⟨"tools/call", [("name", .str "frobnicate")], .num 3⟩ rfl).1
      (.validation "Unknown tool: frobnicate") w0 rfl
  · exact (dispatcher_converts_handler_errors w0
      ⟨"tools/call", [("name", .str "frobnicate")], .num 3⟩ rfl).2
      "frobnicate" rfl (by decide)

/-! ## C8 -/

/-- C8: the loop performs at most 8 oracle rounds for every oracle behavior;
an oracle that requests tool calls on every round drives exactly 8 rounds
and the fixed fallback answer; an oracle that answers directly on the first
round yields that answer after exactly one round-trip and zero tool
invocations. -/
theorem run_chat_round_bound (mcp_tools : List (List (String × JVal)))
    (oracle : List Bridge.OpenAITool → List Bridge.Msg → Bridge.OracleResp)
    (callTool : String → String → Except String (List ContentPart))
    (prompt system : String) :
    (Bridge.run_chat mcp_tools oracle callTool prompt system).2.1 ≤ 8 ∧
    ((∀ msgs, (oracle (Bridge.to_openai_tools mcp_tools) msgs).tool_calls ≠ []) →
      (Bridge.run_chat mcp_tools oracle callTool prompt system).1 =
          Bridge.FALLBACK_ANSWER ∧
      (Bridge.run_chat mcp_tools oracle callTool prompt system).2.1 = 8) ∧
    ((oracle (Bridge.to_openai_tools mcp_tools)
        (Bridge.initialMessages system prompt)).tool_calls = [] →
      Bridge.run_chat mcp_tools oracle callTool prompt system =
        ((oracle (Bridge.to_openai_tools mcp_tools)
            (Bridge.initialMessages system prompt)).content.getD "", 1, 0)) := by
  refine ⟨run_chat_loop_rounds_le _ _ _ _, ?_, ?_⟩
  · intro h
    exact run_chat_loop_always_tools _ _ h 8 _
  · intro h
    exact run_chat_loop_first_final (oracle (Bridge.to_openai_tools mcp_tools))
      callTool 7 (Bridge.initialMessages system prompt) h

/-- C8 witness: the always-calling stub yields the fallback after exactly 8
rounds; the direct stub yields its answer as `("42", 1 round, 0 tool calls)`. -/
theorem run_chat_round_bound_witness :
    (Bridge.run_chat [] alwaysCallOracle downTransport "hi" "sys").1 =
        Bridge.FALLBACK_ANSWER ∧
    (Bridge.run_chat [] alwaysCallOracle downTransport "hi" "sys").2.1 = 8 ∧
    Bridge.run_chat [] directOracle downTransport "hi" "sys" = ("42", 1, 0) := by
  refine ⟨?_, ?_, ?_⟩
  · exact ((run_chat_round_bound [] alwaysCallOracle downTransport "hi" "sys").2.1
      (fun _ => by simp [alwaysCallOracle])).1
  · exact ((run_chat_round_bound [] alwaysCallOracle downTransport "hi" "sys").2.1
      (fun _ => by simp [alwaysCallOracle])).2
  · exact (run_chat_round_bound [] directOracle downTransport "hi" "sys").2.2 rfl

/-! ## C9 -/

/-- C9 counterexample: the stdio server's echo returns ONLY a Text part —
no Json part — so echo does not return both part kinds in both server
implementations. -/
theorem stdio_echo_lacks_json_part :
    StdioSrv.call_tool "2026-01-01T00:00:00" (some "echo") [("text", .str "hello")] =
      .ok [.text "hello"] ∧
    hasJsonPart [ContentPart.text "hello"] = false :=
  ⟨rfl, rfl⟩

/-- C9 amended: for every string t, the Flask server's echo returns t
unchanged as both a Text part and a Json part (wrapped as `{"text": t}`),
while the stdio server's echo returns t unchanged as a Text part only. -/
theorem echo_parts (w : World) (clock t : String) :
    Flask.call_tool w (some "echo") [("text", .str t)] =
      (.ok [.text t, .json (.obj [("text", .str t)])], w) ∧
    StdioSrv.call_tool clock (some "echo") [("text", .str t)] = .ok [.text t] :=
  ⟨rfl, rfl⟩

/-! ## C10 -/

/-- C10: with the `text` argument absent, echo and word_count succeed in both
servers — echo yields the empty string, word_count yields
`{words: 0, characters: 0}` — even though `text` is listed as required in
every one of their input schemas. -/
theorem missing_text_argument_defaults (w : World) (clock : String) :
    Flask.call_tool w (some "echo") [] =
      (.ok [.text "", .json (.obj [("text", .str "")])], w) ∧
    Flask.call_tool w (some "word_count") [] =
      (.ok [.text "words=0 chars=0",
            .json (.obj [("words", .num 0), ("characters", .num 0)])], w) ∧
    StdioSrv.call_tool clock (some "echo") [] = .ok [.text ""] ∧
    StdioSrv.call_tool clock (some "word_count") [] =
      .ok [.text "words=0 chars=0",
           .json (.obj [("words", .num 0), ("characters", .num 0)])] ∧
    ((Flask.list_tools ++ StdioSrv.list_tools).all (fun t =>
        !(decide (t.name = "echo") || decide (t.name = "word_count")) ||
          decide ("text" ∈ requiredOf t.inputSchema))) = true :=
  ⟨rfl, rfl, rfl, rfl, rfl⟩

/-- C4 witness: with `make_parents` false the NotFound failure leaves the
world untouched. -/
theorem move_path_missing_source_witness :
    Flask.call_tool w0 (some "move_path")
        [("src", .str "missing.txt"), ("dst", .str "b.txt"),
         ("make_parents", .bool false)] =
      (.error (.notFound "Source not found"), w0) :=
  (move_path_missing_source w0 "missing.txt" "b.txt" false
    { absolute := true, segs := BASE_DIR.segs ++ ["missing.txt"] }
    { absolute := true, segs := BASE_DIR.segs ++ ["b.txt"] }
    rfl rfl rfl).1

/-- C9 witness: the amended echo behavior at a concrete string. -/
theorem echo_parts_witness :
    Flask.call_tool w0 (some "echo") [("text", .str "hello")] =
      (.ok [.text "hello", .json (.obj [("text", .str "hello")])], w0) ∧
    StdioSrv.call_tool "2026-01-01T00:00:00" (some "echo") [("text", .str "hello")] =
      .ok [.text "hello"] :=
  echo_parts w0 "2026-01-01T00:00:00" "hello"

/-- C10 witness: the missing-argument defaults at a concrete world and clock. -/
theorem missing_text_argument_defaults_witness :
    Flask.call_tool w0 (some "echo") [] =
      (.ok [.text "", .json (.obj [("text", .str "")])], w0) ∧
    Flask.call_tool w0 (some "word_count") [] =
      (.ok [.text "words=0 chars=0",
            .json (.obj [("words", .num 0), ("characters", .num 0)])], w0) :=
  ⟨(missing_text_argument_defaults w0 "x").1,
   (missing_text_argument_defaults w0 "x").2.1⟩
